import Mathlib

/-!
Shallow embedding of the backend API (src/main.py, src/schemas.py):
a FastAPI app with pydantic validation persisting documents in a MongoDB
store. Request payloads are JSON objects, modelled as association lists
of string keys to JSON-ish values. The persistence layer (database.py:
create_document, get_documents, the pymongo handle db) is not part of
src/, so store operations are modelled from the spec's Persistence
Gateway contract where noted.
-/

/-- A JSON-ish payload value: pydantic receives strings, integers,
booleans and null in the fields the schemas declare. Lax numeric-string
coercions of pydantic are not modelled (no claim involves them). -/
inductive Value where
  | str (s : String)
  | int (n : Int)
  | bool (b : Bool)
  | null
deriving Repr, DecidableEq

/-- A request body `Dict[str, Any]` as an association list (first
binding wins, as in a Python dict there are no duplicates). -/
abbrev Payload := List (String × Value)

/-- Dictionary lookup on the payload. -/
def lookupField (pl : Payload) (k : String) : Option Value :=
  match pl with
  | [] => none
  | (k', v) :: rest => if k' = k then some v else lookupField rest k

/-- One entry of pydantic's `e.errors()` list: the offending field and
the kind of violation. -/
structure FieldError where
  field : String
  msg : String
deriving Repr, DecidableEq

/-- Collect the error of one field check, as pydantic collects one
entry per violated field. -/
def errsOf {α : Type} : Except FieldError α → List FieldError
  | .ok _ => []
  | .error e => [e]

/-- Modelled from the spec: standard email syntax (pydantic EmailStr
delegates to the email-validator library, which is not in src/):
exactly one at-sign, non-empty local part, domain containing a dot. -/
def isValidEmail (s : String) : Bool :=
  match s.data.splitOn '@' with
  | [l, d] => !l.isEmpty && !d.isEmpty && d.contains '.'
  | _ => false

/-- Required string field with inclusive length bounds
(`Field(..., min_length=lo, max_length=hi)`). -/
def reqStrLenV (k : String) (lo hi : Nat) : Option Value → Except FieldError String
  | none => .error ⟨k, "missing"⟩
  | some (.str s) =>
      if s.length < lo then .error ⟨k, "string_too_short"⟩
      else if hi < s.length then .error ⟨k, "string_too_long"⟩
      else .ok s
  | some _ => .error ⟨k, "string_type"⟩

def reqStrLen (pl : Payload) (k : String) (lo hi : Nat) : Except FieldError String :=
  reqStrLenV k lo hi (lookupField pl k)

/-- Required string field with no length bounds (`title: str`). -/
def reqStrV (k : String) : Option Value → Except FieldError String
  | none => .error ⟨k, "missing"⟩
  | some (.str s) => .ok s
  | some _ => .error ⟨k, "string_type"⟩

def reqStr (pl : Payload) (k : String) : Except FieldError String :=
  reqStrV k (lookupField pl k)

/-- Required email field (`email: EmailStr`). -/
def reqEmailV (k : String) : Option Value → Except FieldError String
  | none => .error ⟨k, "missing"⟩
  | some (.str s) => if isValidEmail s then .ok s else .error ⟨k, "value_error_email"⟩
  | some _ => .error ⟨k, "string_type"⟩

def reqEmail (pl : Payload) (k : String) : Except FieldError String :=
  reqEmailV k (lookupField pl k)

/-- Optional string field with an inclusive max length
(`Optional[str] = Field(None, max_length=hi)`): absent or null gives
None, an over-long string is rejected, not truncated. -/
def optStrMaxV (k : String) (hi : Nat) : Option Value → Except FieldError (Option String)
  | none => .ok none
  | some .null => .ok none
  | some (.str s) => if hi < s.length then .error ⟨k, "string_too_long"⟩ else .ok (some s)
  | some _ => .error ⟨k, "string_type"⟩

def optStrMax (pl : Payload) (k : String) (hi : Nat) : Except FieldError (Option String) :=
  optStrMaxV k hi (lookupField pl k)

/-- Optional unbounded string field (`Optional[str] = None`). -/
def optStrV (k : String) : Option Value → Except FieldError (Option String)
  | none => .ok none
  | some .null => .ok none
  | some (.str s) => .ok (some s)
  | some _ => .error ⟨k, "string_type"⟩

def optStr (pl : Payload) (k : String) : Except FieldError (Option String) :=
  optStrV k (lookupField pl k)

/-- Optional email field (`Optional[EmailStr] = None`). -/
def optEmailV (k : String) : Option Value → Except FieldError (Option String)
  | none => .ok none
  | some .null => .ok none
  | some (.str s) => if isValidEmail s then .ok (some s) else .error ⟨k, "value_error_email"⟩
  | some _ => .error ⟨k, "string_type"⟩

def optEmail (pl : Payload) (k : String) : Except FieldError (Option String) :=
  optEmailV k (lookupField pl k)

/-- Optional non-negative integer field (`Optional[int] = Field(None, ge=0)`):
an inclusive lower bound, no upper bound. -/
def optNonnegIntV (k : String) : Option Value → Except FieldError (Option Int)
  | none => .ok none
  | some .null => .ok none
  | some (.int n) => if n < 0 then .error ⟨k, "greater_than_equal"⟩ else .ok (some n)
  | some _ => .error ⟨k, "int_type"⟩

def optNonnegInt (pl : Payload) (k : String) : Except FieldError (Option Int) :=
  optNonnegIntV k (lookupField pl k)

/-- Optional non-negative integer field defaulting to 0 when absent
(`Optional[int] = Field(0, ge=0)`): explicit null is allowed and kept. -/
def defNonnegIntV (k : String) : Option Value → Except FieldError (Option Int)
  | none => .ok (some 0)
  | some .null => .ok none
  | some (.int n) => if n < 0 then .error ⟨k, "greater_than_equal"⟩ else .ok (some n)
  | some _ => .error ⟨k, "int_type"⟩

def defNonnegInt (pl : Payload) (k : String) : Except FieldError (Option Int) :=
  defNonnegIntV k (lookupField pl k)

/-- Non-optional string field with a schema default (`str = Field(d)`):
absent gives the default; explicit null is a type error. -/
def defStrV (k : String) (d : String) : Option Value → Except FieldError String
  | none => .ok d
  | some (.str s) => .ok s
  | some _ => .error ⟨k, "string_type"⟩

def defStr (pl : Payload) (k : String) (d : String) : Except FieldError String :=
  defStrV k d (lookupField pl k)

/-- Boolean field with a schema default (`bool = Field(d)`). -/
def defBoolV (k : String) (d : Bool) : Option Value → Except FieldError Bool
  | none => .ok d
  | some (.bool b) => .ok b
  | some _ => .error ⟨k, "bool_type"⟩

def defBool (pl : Payload) (k : String) (d : Bool) : Except FieldError Bool :=
  defBoolV k d (lookupField pl k)

/-- Optional boolean field (`Optional[bool] = None`). -/
def optBoolV (k : String) : Option Value → Except FieldError (Option Bool)
  | none => .ok none
  | some .null => .ok none
  | some (.bool b) => .ok (some b)
  | some _ => .error ⟨k, "bool_type"⟩

def optBool (pl : Payload) (k : String) : Except FieldError (Option Bool) :=
  optBoolV k (lookupField pl k)

/-- schemas.py ContactMessage: a validated contact-form record. -/
structure ContactMessage where
  name : String
  email : String
  message : String
  company : Option String
  phone : Option String
deriving Repr, DecidableEq

/-- Pydantic validation of ContactMessage: every field is checked and
all violations are collected into one error list (pydantic reports one
entry per violated field, in field order); unknown payload keys are
never consulted (pydantic v2 default `extra` behaviour is ignore). -/
def ContactMessage.validate (pl : Payload) : Except (List FieldError) ContactMessage :=
  match reqStrLen pl "name" 2 120, reqEmail pl "email", reqStrLen pl "message" 10 5000,
        optStrMax pl "company" 200, optStrMax pl "phone" 50 with
  | .ok n, .ok e, .ok m, .ok c, .ok p => .ok ⟨n, e, m, c, p⟩
  | rn, re, rm, rc, rp =>
      .error (errsOf rn ++ errsOf re ++ errsOf rm ++ errsOf rc ++ errsOf rp)

/-- schemas.py SiteSettings: editable site-wide settings, a
single-document collection. -/
structure SiteSettings where
  hero_title : String
  hero_subtitle : String
  whatsapp_number : Option String
  contact_email : Option String
  address_line : Option String
  city : Option String
  country : Option String
  stat_projects : Option Int
  stat_clients : Option Int
  stat_awards : Option Int
  theme_default_dark : Bool
deriving Repr, DecidableEq

/-- The schema defaults of SiteSettings, as produced by `SiteSettings()`
with no arguments. -/
def defaultSiteSettings : SiteSettings :=
  ⟨"INNOVATE. BUILD. TRANSFORM WITH AXIOM.",
   "We design smart digital experiences that move businesses forward.",
   none, none, none, none, none, some 0, some 0, some 0, true⟩

/-- Pydantic validation of SiteSettings: all violations collected,
absent fields take their schema defaults, unknown keys ignored. -/
def SiteSettings.validate (pl : Payload) : Except (List FieldError) SiteSettings :=
  match defStr pl "hero_title" defaultSiteSettings.hero_title,
        defStr pl "hero_subtitle" defaultSiteSettings.hero_subtitle,
        optStr pl "whatsapp_number", optEmail pl "contact_email",
        optStr pl "address_line", optStr pl "city", optStr pl "country",
        defNonnegInt pl "stat_projects", defNonnegInt pl "stat_clients",
        defNonnegInt pl "stat_awards", defBool pl "theme_default_dark" true with
  | .ok ht, .ok hs, .ok w, .ok ce, .ok al, .ok ci, .ok co,
    .ok sp, .ok sc, .ok sa, .ok td => .ok ⟨ht, hs, w, ce, al, ci, co, sp, sc, sa, td⟩
  | rht, rhs, rw, rce, ral, rci, rco, rsp, rsc, rsa, rtd =>
      .error (errsOf rht ++ errsOf rhs ++ errsOf rw ++ errsOf rce ++ errsOf ral ++
              errsOf rci ++ errsOf rco ++ errsOf rsp ++ errsOf rsc ++ errsOf rsa ++ errsOf rtd)

/-- schemas.py Project: a portfolio project document. -/
structure Project where
  title : String
  tag : String
  image_url : String
  description : Option String
  case_study_url : Option String
  featured : Bool
  order : Option Int
deriving Repr, DecidableEq

/-- Pydantic validation of Project: title, tag and image_url required,
featured defaults false, order is an optional non-negative integer. -/
def Project.validate (pl : Payload) : Except (List FieldError) Project :=
  match reqStr pl "title", reqStr pl "tag", reqStr pl "image_url",
        optStr pl "description", optStr pl "case_study_url",
        defBool pl "featured" false, optNonnegInt pl "order" with
  | .ok t, .ok g, .ok iu, .ok d, .ok c, .ok f, .ok o => .ok ⟨t, g, iu, d, c, f, o⟩
  | rt, rg, ri, rd, rc, rf, ro =>
      .error (errsOf rt ++ errsOf rg ++ errsOf ri ++ errsOf rd ++
              errsOf rc ++ errsOf rf ++ errsOf ro)

/-- schemas.py ProjectUpdate: every Project field made optional, used
for partial updates; a field left at None is not applied. -/
structure ProjectUpdate where
  title : Option String
  tag : Option String
  image_url : Option String
  description : Option String
  case_study_url : Option String
  featured : Option Bool
  order : Option Int
deriving Repr, DecidableEq

/-- Pydantic validation of ProjectUpdate: all fields optional, order
still bounded below by 0, unknown keys ignored. -/
def ProjectUpdate.validate (pl : Payload) : Except (List FieldError) ProjectUpdate :=
  match optStr pl "title", optStr pl "tag", optStr pl "image_url",
        optStr pl "description", optStr pl "case_study_url",
        optBool pl "featured", optNonnegInt pl "order" with
  | .ok t, .ok g, .ok iu, .ok d, .ok c, .ok f, .ok o => .ok ⟨t, g, iu, d, c, f, o⟩
  | rt, rg, ri, rd, rc, rf, ro =>
      .error (errsOf rt ++ errsOf rg ++ errsOf ri ++ errsOf rd ++
              errsOf rc ++ errsOf rf ++ errsOf ro)

/-- Modelled from the spec: store-assigned object identifiers surfaced
as opaque strings (database.py is not in src/). BSON ObjectIds render
as 24 hexadecimal characters; the model derives one from a counter. -/
def objectIdOfNat (n : Nat) : String :=
  String.mk (List.replicate (24 - (Nat.toDigits 16 n).length) '0' ++ Nat.toDigits 16 n)

/-- The `ObjectId(project_id)` constructor of bson accepts exactly a
24-character hexadecimal string and raises InvalidId otherwise. -/
def isValidObjectId (s : String) : Bool :=
  s.length == 24 && s.data.all (fun c =>
    c.isDigit || ('a' ≤ c && c ≤ 'f') || ('A' ≤ c && c ≤ 'F'))

/-- Modelled from the spec: one named collection of the document store,
a list of id/record pairs plus the id-assignment counter (the store
engine is outside src/ and treated as an opaque store). -/
structure Store (α : Type) where
  docs : List (String × α)
  nextId : Nat
deriving Repr, DecidableEq

/-- Modelled from the spec: `create(collection, record) -> id` of the
Persistence Gateway (database.py create_document). Inserts exactly one
document and returns its assigned identifier as a string. -/
def Store.create {α : Type} (s : Store α) (a : α) : String × Store α :=
  (objectIdOfNat s.nextId, ⟨s.docs ++ [(objectIdOfNat s.nextId, a)], s.nextId + 1⟩)

/-- An HTTP-style response: status code, body/detail string, pydantic
error list for 422 responses, and the id field for create responses. -/
structure Resp where
  status : Nat
  detail : String
  errors : List FieldError
  id : Option String
deriving Repr, DecidableEq

/-- main.py submit_contact (POST /api/contact): validate the payload as
a ContactMessage (422 with pydantic's error list on failure, before any
store call), then insert exactly one document and answer
`status "ok"` with the inserted id. The store is taken as live (the
`except` 500 branch models only storage failures, absent here). -/
def submit_contact (pl : Payload) (s : Store ContactMessage) :
    Resp × Store ContactMessage :=
  match ContactMessage.validate pl with
  | .error es => (⟨422, "", es, none⟩, s)
  | .ok m =>
      let c := s.create m
      (⟨200, "ok", [], some c.1⟩, c.2)

/-- The document returned by GET /api/admin/settings: the settings
content plus the `_id` key when the response came from a stored
document (the defaults branch returns the dump of `SiteSettings()`,
which carries no `_id`). -/
structure SettingsDoc where
  id : Option String
  data : SiteSettings
deriving Repr, DecidableEq

/-- main.py get_settings (GET /api/admin/settings): read the first
stored settings document (`get_documents(..., limit=1)`, modelled from
the spec as returning documents with their id attached as a string) and
return it with `_id` stringified; when none exists, insert a default
document and return the freshly dumped defaults. -/
def get_settings (s : Store SiteSettings) : SettingsDoc × Store SiteSettings :=
  match s.docs with
  | (i, d) :: _ => (⟨some i, d⟩, s)
  | [] => (⟨none, defaultSiteSettings⟩, (s.create defaultSiteSettings).2)

/-- Iterated settings reads, to speak about any number of calls. -/
def iterGetSettings : Nat → Store SiteSettings → Store SiteSettings
  | 0, s => s
  | n + 1, s => iterGetSettings n (get_settings s).2

/-- main.py upsert_settings (POST /api/admin/settings): validate the
payload as SiteSettings (422 on failure); then `find_one` an existing
document and `$set` the full `model_dump()` over it (every schema field
overwritten), answering `status "updated"`; with no existing document,
insert and answer `status "created"` with the id. -/
def upsert_settings (pl : Payload) (s : Store SiteSettings) :
    Resp × Store SiteSettings :=
  match SiteSettings.validate pl with
  | .error es => (⟨422, "", es, none⟩, s)
  | .ok data =>
      match s.docs with
      | (i, _) :: rest => (⟨200, "updated", [], none⟩, ⟨(i, data) :: rest, s.nextId⟩)
      | [] =>
          let c := s.create data
          (⟨200, "created", [], some c.1⟩, c.2)

/-- main.py list_projects (GET /api/admin/projects): the Python filter
is `if tag` on the query parameter, so both an absent tag and the empty
string (falsy in Python) give the empty filter returning every
document; a non-empty tag gives the equality filter on the tag field
(get_documents modelled from the spec's equality-filter find). -/
def list_projects (tag : Option String) (s : Store Project) :
    List (String × Project) :=
  match tag with
  | some t => if t = "" then s.docs else s.docs.filter (fun d => d.2.tag == t)
  | none => s.docs

/-- main.py create_project (POST /api/admin/projects): validate and
insert one Project document. -/
def create_project (pl : Payload) (s : Store Project) : Resp × Store Project :=
  match Project.validate pl with
  | .error es => (⟨422, "", es, none⟩, s)
  | .ok p =>
      let c := s.create p
      (⟨200, "created", [], some c.1⟩, c.2)

/-- The `$set` document of main.py update_project:
`{k: v for k, v in data.model_dump().items() if v is not None}` applied
by the store to the matched Project document — every non-None field of
the validated ProjectUpdate overwrites the stored field, every None
field is dropped from the update and leaves the stored value. -/
def applyUpdate (p : Project) (u : ProjectUpdate) : Project :=
  ⟨u.title.getD p.title,
   u.tag.getD p.tag,
   u.image_url.getD p.image_url,
   match u.description with | some d => some d | none => p.description,
   match u.case_study_url with | some c => some c | none => p.case_study_url,
   u.featured.getD p.featured,
   match u.order with | some o => some o | none => p.order⟩

/-- main.py update_project (PUT /api/admin/projects/id): validate the
ProjectUpdate payload (422 on failure). Inside the handler's try block:
`ObjectId(project_id)` raises bson InvalidId on a non-24-hex string,
which the blanket `except Exception` turns into a 500; `update_one`
applies the non-None `$set`; on `matched_count == 0` the code raises
`HTTPException(404, "Project not found")`, but that exception is itself
caught by the same `except Exception` clause and re-raised as a 500
whose detail is `str(e)`, i.e. "404: Project not found" — no 404 status
can escape this handler. -/
def update_project (pid : String) (pl : Payload) (s : Store Project) :
    Resp × Store Project :=
  match ProjectUpdate.validate pl with
  | .error es => (⟨422, "", es, none⟩, s)
  | .ok u =>
      if isValidObjectId pid then
        if s.docs.any (fun d => d.1 == pid) then
          (⟨200, "updated", [], none⟩,
           ⟨s.docs.map (fun d => if d.1 == pid then (d.1, applyUpdate d.2 u) else d),
            s.nextId⟩)
        else
          (⟨500, "404: Project not found", [], none⟩, s)
      else
        (⟨500, "InvalidId", [], none⟩, s)

/-- main.py delete_project (DELETE /api/admin/projects/id): same
structure as update_project without a payload; `delete_one` by id, and
on `deleted_count == 0` the raised `HTTPException(404)` is caught by
the blanket `except Exception` and re-raised as a 500 with detail
"404: Project not found". -/
def delete_project (pid : String) (s : Store Project) : Resp × Store Project :=
  if isValidObjectId pid then
    if s.docs.any (fun d => d.1 == pid) then
      (⟨200, "deleted", [], none⟩,
       ⟨s.docs.filter (fun d => !(d.1 == pid)), s.nextId⟩)
    else
      (⟨500, "404: Project not found", [], none⟩, s)
  else
    (⟨500, "InvalidId", [], none⟩, s)

/-- Claim-side characterization of the partial-update target for a
required string field: the payload's value when the key is explicitly
present with a non-null string, the stored value otherwise. -/
def updTargetStr (pl : Payload) (k : String) (old : String) : String :=
  match lookupField pl k with
  | some (.str s) => s
  | _ => old

/-- Claim-side update target for an optional string field. -/
def updTargetOptStr (pl : Payload) (k : String) (old : Option String) : Option String :=
  match lookupField pl k with
  | some (.str s) => some s
  | _ => old

/-- Claim-side update target for the boolean featured field. -/
def updTargetBool (pl : Payload) (k : String) (old : Bool) : Bool :=
  match lookupField pl k with
  | some (.bool b) => b
  | _ => old

/-- Claim-side update target for the optional integer order field. -/
def updTargetOptInt (pl : Payload) (k : String) (old : Option Int) : Option Int :=
  match lookupField pl k with
  | some (.int n) => some n
  | _ => old

/-- True when pydantic validation succeeded. -/
def isAccepted {α : Type} : Except (List FieldError) α → Bool
  | .ok _ => true
  | .error _ => false

/-- A string of n copies of the letter a, for the length-bound checks. -/
def charRun (n : Nat) : String :=
  String.mk (List.replicate n 'a')

/-- A contact payload with a valid email and name/message of the given
lengths, to probe the length bounds. -/
def contactPayloadLen (nameLen msgLen : Nat) : Payload :=
  [("name", .str (charRun nameLen)), ("email", .str "a@b.co"),
   ("message", .str (charRun msgLen))]

/-- The declared field names of ContactMessage. -/
def contactKeys : List String :=
  ["name", "email", "message", "company", "phone"]

/-- The declared field names of SiteSettings. -/
def settingsKeys : List String :=
  ["hero_title", "hero_subtitle", "whatsapp_number", "contact_email",
   "address_line", "city", "country", "stat_projects", "stat_clients",
   "stat_awards", "theme_default_dark"]

/-- The declared field names of Project and ProjectUpdate. -/
def projectKeys : List String :=
  ["title", "tag", "image_url", "description", "case_study_url",
   "featured", "order"]

/-- Concrete inputs used by the witnesses. -/
def demoProject : Project :=
  ⟨"Site Redesign", "Web", "http://x/y.png", none, none, false, none⟩

def demoUpdatePayload : Payload := [("featured", Value.bool true)]

def demoUpdate : ProjectUpdate := ⟨none, none, none, none, none, some true, none⟩

def demoProjectStore : Store Project :=
  ⟨[("aaaaaaaaaaaaaaaaaaaaaaa1", ⟨"A", "Web", "u1", none, none, false, none⟩),
    ("aaaaaaaaaaaaaaaaaaaaaaa2", ⟨"B", "AI", "u2", none, none, false, none⟩),
    ("aaaaaaaaaaaaaaaaaaaaaaa3", ⟨"C", "Web", "u3", none, none, true, none⟩)], 4⟩

def demoSettingsStore : Store SiteSettings :=
  ⟨[("b00000000000000000000000", defaultSiteSettings)], 1⟩

def emptySettingsStore : Store SiteSettings := ⟨[], 0⟩

def demoContactPayload : Payload :=
  [("name", Value.str "Jo"), ("email", Value.str "a@b.co"),
   ("message", Value.str "hello there")]

def demoSettingsPayload : Payload := [("city", Value.str "Berlin")]

def demoSettings : SiteSettings :=
  ⟨defaultSiteSettings.hero_title, defaultSiteSettings.hero_subtitle,
   none, none, none, some "Berlin", none, some 0, some 0, some 0, true⟩

/-- Inversion of a successful ProjectUpdate validation: each field of
the result is the output of its field extractor. -/
theorem projectUpdate_validate_ok {pl : Payload} {u : ProjectUpdate}
    (hv : ProjectUpdate.validate pl = .ok u) :
    optStr pl "title" = .ok u.title ∧ optStr pl "tag" = .ok u.tag ∧
    optStr pl "image_url" = .ok u.image_url ∧
    optStr pl "description" = .ok u.description ∧
    optStr pl "case_study_url" = .ok u.case_study_url ∧
    optBool pl "featured" = .ok u.featured ∧
    optNonnegInt pl "order" = .ok u.order := by
  unfold ProjectUpdate.validate at hv
  split at hv
  case _ t g iu d c f o ht hg hi hd hc hf ho =>
    injection hv with h
    subst h
    exact ⟨ht, hg, hi, hd, hc, hf, ho⟩
  case _ => simp at hv

/-- Inversion of a successful SiteSettings validation. -/
theorem siteSettings_validate_ok {pl : Payload} {d : SiteSettings}
    (hv : SiteSettings.validate pl = .ok d) :
    defStr pl "hero_title" defaultSiteSettings.hero_title = .ok d.hero_title ∧
    defStr pl "hero_subtitle" defaultSiteSettings.hero_subtitle = .ok d.hero_subtitle ∧
    optStr pl "whatsapp_number" = .ok d.whatsapp_number ∧
    optEmail pl "contact_email" = .ok d.contact_email ∧
    optStr pl "address_line" = .ok d.address_line ∧
    optStr pl "city" = .ok d.city ∧
    optStr pl "country" = .ok d.country ∧
    defNonnegInt pl "stat_projects" = .ok d.stat_projects ∧
    defNonnegInt pl "stat_clients" = .ok d.stat_clients ∧
    defNonnegInt pl "stat_awards" = .ok d.stat_awards ∧
    defBool pl "theme_default_dark" true = .ok d.theme_default_dark := by
  unfold SiteSettings.validate at hv
  split at hv
  case _ ht hs w ce al ci co sp sc sa td h1 h2 h3 h4 h5 h6 h7 h8 h9 h10 h11 =>
    injection hv with h
    subst h
    exact ⟨h1, h2, h3, h4, h5, h6, h7, h8, h9, h10, h11⟩
  case _ => simp at hv

/-- A field check with no recorded error succeeded. -/
theorem errsOf_eq_nil {α : Type} {r : Except FieldError α}
    (h : errsOf r = []) : ∃ a, r = .ok a := by
  cases r with
  | ok a => exact ⟨a, rfl⟩
  | error e => simp [errsOf] at h

/-- A failed ContactMessage validation reports at least one field
error: the error list of the 422 response is never empty. -/
theorem ContactMessage.validate_error_ne_nil {pl : Payload} {es : List FieldError}
    (hv : ContactMessage.validate pl = .error es) : es ≠ [] := by
  unfold ContactMessage.validate at hv
  split at hv
  · simp at hv
  case _ rn re rm rc rp h =>
    injection hv with h2
    subst h2
    intro hnil
    simp only [List.append_eq_nil] at hnil
    obtain ⟨⟨⟨⟨e1, e2⟩, e3⟩, e4⟩, e5⟩ := hnil
    obtain ⟨n, hn⟩ := errsOf_eq_nil e1
    obtain ⟨e, he⟩ := errsOf_eq_nil e2
    obtain ⟨m, hm⟩ := errsOf_eq_nil e3
    obtain ⟨c, hc⟩ := errsOf_eq_nil e4
    obtain ⟨p, hp⟩ := errsOf_eq_nil e5
    exact h n e m c p hn he hm hc hp

/-- Store-assigned identifiers are never the empty string. -/
theorem objectIdOfNat_ne_empty (n : Nat) : objectIdOfNat n ≠ "" := by
  intro h
  have hd : List.replicate (24 - (Nat.toDigits 16 n).length) '0' ++
      Nat.toDigits 16 n = [] := congrArg String.data h
  rcases List.append_eq_nil.mp hd with ⟨h1, h2⟩
  rw [h2] at h1
  simp at h1

/-- An optional string extraction, applied with getD, realizes the
claim-side update target for a required string field. -/
theorem optStr_target {pl : Payload} {k : String} {r : Option String}
    (h : optStr pl k = .ok r) (old : String) :
    r.getD old = updTargetStr pl k old := by
  unfold optStr at h
  unfold updTargetStr
  cases hL : lookupField pl k with
  | none =>
      rw [hL] at h
      simp only [optStrV, Except.ok.injEq] at h
      rw [← h]
      rfl
  | some v =>
      rw [hL] at h
      cases v with
      | str s => simp only [optStrV, Except.ok.injEq] at h; rw [← h]; rfl
      | int n => simp [optStrV] at h
      | bool b => simp [optStrV] at h
      | null => simp only [optStrV, Except.ok.injEq] at h; rw [← h]; rfl

/-- An optional boolean extraction realizes the claim-side update
target for the featured field. -/
theorem optBool_target {pl : Payload} {k : String} {r : Option Bool}
    (h : optBool pl k = .ok r) (old : Bool) :
    r.getD old = updTargetBool pl k old := by
  unfold optBool at h
  unfold updTargetBool
  cases hL : lookupField pl k with
  | none =>
      rw [hL] at h
      simp only [optBoolV, Except.ok.injEq] at h
      rw [← h]
      rfl
  | some v =>
      rw [hL] at h
      cases v with
      | str s => simp [optBoolV] at h
      | int n => simp [optBoolV] at h
      | bool b => simp only [optBoolV, Except.ok.injEq] at h; rw [← h]; rfl
      | null => simp only [optBoolV, Except.ok.injEq] at h; rw [← h]; rfl

/-- A defaulted string field is its schema default when absent. -/
theorem defStr_absent {pl : Payload} {k d r : String}
    (h : defStr pl k d = .ok r) (hL : lookupField pl k = none) : r = d := by
  unfold defStr at h
  rw [hL] at h
  injection h with h
  exact h.symm

/-- An optional string field is None when absent. -/
theorem optStr_absent {pl : Payload} {k : String} {r : Option String}
    (h : optStr pl k = .ok r) (hL : lookupField pl k = none) : r = none := by
  unfold optStr at h
  rw [hL] at h
  injection h with h
  exact h.symm

/-- An optional email field is None when absent. -/
theorem optEmail_absent {pl : Payload} {k : String} {r : Option String}
    (h : optEmail pl k = .ok r) (hL : lookupField pl k = none) : r = none := by
  unfold optEmail at h
  rw [hL] at h
  injection h with h
  exact h.symm

/-- A zero-defaulted stat field is 0 when absent. -/
theorem defNonnegInt_absent {pl : Payload} {k : String} {r : Option Int}
    (h : defNonnegInt pl k = .ok r) (hL : lookupField pl k = none) : r = some 0 := by
  unfold defNonnegInt at h
  rw [hL] at h
  injection h with h
  exact h.symm

/-- A defaulted boolean field is its schema default when absent. -/
theorem defBool_absent {pl : Payload} {k : String} {d r : Bool}
    (h : defBool pl k d = .ok r) (hL : lookupField pl k = none) : r = d := by
  unfold defBool at h
  rw [hL] at h
  injection h with h
  exact h.symm

/-- Appending a binding for a different key does not change a lookup. -/
theorem lookupField_append_single (pl : Payload) (k k' : String) (v : Value)
    (h : k' ≠ k) : lookupField (pl ++ [(k, v)]) k' = lookupField pl k' := by
  induction pl with
  | nil => simp [lookupField, if_neg (Ne.symm h)]
  | cons a rest ih =>
      cases a with
      | mk ka va =>
          simp only [List.cons_append, lookupField]
          split
          · rfl
          · exact ih

/-- Inversion: an optional string field extracted as a value was
explicitly present in the payload as that non-null string. -/
theorem optStr_ok_some {pl : Payload} {k s : String}
    (h : optStr pl k = .ok (some s)) : lookupField pl k = some (.str s) := by
  unfold optStr at h
  cases hL : lookupField pl k with
  | none => rw [hL] at h; simp [optStrV] at h
  | some v =>
      rw [hL] at h
      cases v with
      | str t =>
          simp only [optStrV, Except.ok.injEq, Option.some.injEq] at h
          rw [h]
      | int n => simp [optStrV] at h
      | bool b => simp [optStrV] at h
      | null => simp [optStrV] at h

/-- Inversion: an optional string field extracted as None was absent
from the payload or explicitly null. -/
theorem optStr_ok_none {pl : Payload} {k : String}
    (h : optStr pl k = .ok none) :
    lookupField pl k = none ∨ lookupField pl k = some .null := by
  unfold optStr at h
  cases hL : lookupField pl k with
  | none => exact Or.inl rfl
  | some v =>
      rw [hL] at h
      cases v with
      | str t => simp [optStrV] at h
      | int n => simp [optStrV] at h
      | bool b => simp [optStrV] at h
      | null => exact Or.inr rfl

/-- Inversion: an optional boolean field extracted as a value was
explicitly present in the payload as that boolean. -/
theorem optBool_ok_some {pl : Payload} {k : String} {b : Bool}
    (h : optBool pl k = .ok (some b)) : lookupField pl k = some (.bool b) := by
  unfold optBool at h
  cases hL : lookupField pl k with
  | none => rw [hL] at h; simp [optBoolV] at h
  | some v =>
      rw [hL] at h
      cases v with
      | str t => simp [optBoolV] at h
      | int n => simp [optBoolV] at h
      | bool c =>
          simp only [optBoolV, Except.ok.injEq, Option.some.injEq] at h
          rw [h]
      | null => simp [optBoolV] at h

/-- Inversion: an optional boolean field extracted as None was absent
or explicitly null. -/
theorem optBool_ok_none {pl : Payload} {k : String}
    (h : optBool pl k = .ok none) :
    lookupField pl k = none ∨ lookupField pl k = some .null := by
  unfold optBool at h
  cases hL : lookupField pl k with
  | none => exact Or.inl rfl
  | some v =>
      rw [hL] at h
      cases v with
      | str t => simp [optBoolV] at h
      | int n => simp [optBoolV] at h
      | bool c => simp [optBoolV] at h
      | null => exact Or.inr rfl

/-- Inversion: an optional non-negative integer field extracted as a
value was explicitly present in the payload as that integer. -/
theorem optNonnegInt_ok_some {pl : Payload} {k : String} {n : Int}
    (h : optNonnegInt pl k = .ok (some n)) : lookupField pl k = some (.int n) := by
  unfold optNonnegInt at h
  cases hL : lookupField pl k with
  | none => rw [hL] at h; simp [optNonnegIntV] at h
  | some v =>
      rw [hL] at h
      cases v with
      | str t => simp [optNonnegIntV] at h
      | int m =>
          by_cases hm : m < 0
          · simp [optNonnegIntV, hm] at h
          · simp only [optNonnegIntV, if_neg hm, Except.ok.injEq,
              Option.some.injEq] at h
            rw [h]
      | bool c => simp [optNonnegIntV] at h
      | null => simp [optNonnegIntV] at h

/-- Inversion: an optional non-negative integer field extracted as
None was absent or explicitly null. -/
theorem optNonnegInt_ok_none {pl : Payload} {k : String}
    (h : optNonnegInt pl k = .ok none) :
    lookupField pl k = none ∨ lookupField pl k = some .null := by
  unfold optNonnegInt at h
  cases hL : lookupField pl k with
  | none => exact Or.inl rfl
  | some v =>
      rw [hL] at h
      cases v with
      | str t => simp [optNonnegIntV] at h
      | int m =>
          by_cases hm : m < 0
          · simp [optNonnegIntV, hm] at h
          · simp [optNonnegIntV, if_neg hm] at h
      | bool c => simp [optNonnegIntV] at h
      | null => exact Or.inr rfl

/-- Claim C1: the spec says PUT and DELETE on a syntactically valid but
nonexistent project id return a distinct not-found (404) error. The
code raises HTTPException(404) but inside the try block whose blanket
`except Exception` re-raises every exception as a 500, so both
handlers actually answer 500 (detail "404: Project not found") for a
valid 24-hex id matching no stored document: the code contradicts its
own explicit 404 intent. -/
theorem c1_put_delete_nonexistent_id_returns_500 :
    isValidObjectId "aaaaaaaaaaaaaaaaaaaaaaaa" = true ∧
    (update_project "aaaaaaaaaaaaaaaaaaaaaaaa" [] ⟨[], 0⟩).1 =
      ⟨500, "404: Project not found", [], none⟩ ∧
    (delete_project "aaaaaaaaaaaaaaaaaaaaaaaa" ⟨[], 0⟩).1 =
      ⟨500, "404: Project not found", [], none⟩ := by
  decide

/-- Claim C5 counterexample: the spec says an id string that does not
parse as a store identifier is treated as NotFound/invalid input and
not surfaced as any other kind of failure, but both handlers answer a
generic 500 server error (not 404) for the unparseable id "not-an-id". -/
theorem c5_counterexample_invalid_id_is_500_not_404 :
    (update_project "not-an-id" [] ⟨[], 0⟩).1.status = 500 ∧
    (update_project "not-an-id" [] ⟨[], 0⟩).1.status ≠ 404 ∧
    (delete_project "not-an-id" ⟨[], 0⟩).1.status = 500 ∧
    (delete_project "not-an-id" ⟨[], 0⟩).1.status ≠ 404 := by
  decide

/-- Claim C5 (amended): a caller-supplied project id that does not
parse as a valid ObjectId makes PUT (with any payload that validates)
and DELETE answer a generic 500 server error, leaving the store
unchanged; the bson InvalidId exception is caught by the handler's
blanket except clause, so the process does not crash, but the failure
is not distinguished from other server errors. -/
theorem c5_invalid_id_500_no_crash (pid : String) (pl : Payload)
    (u : ProjectUpdate) (s : Store Project)
    (hp : isValidObjectId pid = false)
    (hv : ProjectUpdate.validate pl = .ok u) :
    (update_project pid pl s).1.status = 500 ∧
    (update_project pid pl s).2 = s ∧
    (delete_project pid s).1.status = 500 ∧
    (delete_project pid s).2 = s := by
  unfold update_project delete_project
  rw [hv, hp]
  simp

/-- Claim C5 witness: the amended statement at the concrete
unparseable id "zz!" with the empty payload and a one-document store. -/
theorem c5_invalid_id_500_no_crash_witness :
    isValidObjectId "zz!" = false ∧
    ProjectUpdate.validate [] = .ok ⟨none, none, none, none, none, none, none⟩ ∧
    ((update_project "zz!" [] demoProjectStore).1.status = 500 ∧
     (update_project "zz!" [] demoProjectStore).2 = demoProjectStore ∧
     (delete_project "zz!" demoProjectStore).1.status = 500 ∧
     (delete_project "zz!" demoProjectStore).2 = demoProjectStore) :=
  ⟨by decide, by rfl,
   c5_invalid_id_500_no_crash "zz!" [] ⟨none, none, none, none, none, none, none⟩
     demoProjectStore (by decide) (by rfl)⟩

/-- Claim C6: with a non-empty tag t, GET /api/admin/projects?tag=t
returns exactly the stored documents whose tag equals t (soundness and
completeness of the equality filter), and with no tag supplied it
returns every stored document. -/
theorem c6_tag_filter_exact (t : String) (s : Store Project) (ht : t ≠ "") :
    (∀ d ∈ list_projects (some t) s, d.2.tag = t) ∧
    (∀ d ∈ s.docs, d.2.tag = t → d ∈ list_projects (some t) s) ∧
    list_projects none s = s.docs := by
  simp only [list_projects]
  rw [if_neg ht]
  refine ⟨?_, ?_, trivial⟩
  · intro d hd
    have := List.mem_filter.mp hd
    simpa using this.2
  · intro d hd hdt
    exact List.mem_filter.mpr ⟨hd, by simpa using hdt⟩

/-- Claim C6 witness: filtering the three-document demo store (tags
Web, AI, Web) by the non-empty tag "Web". -/
theorem c6_tag_filter_exact_witness :
    ("Web" : String) ≠ "" ∧
    ((∀ d ∈ list_projects (some "Web") demoProjectStore, d.2.tag = "Web") ∧
     (∀ d ∈ demoProjectStore.docs, d.2.tag = "Web" →
        d ∈ list_projects (some "Web") demoProjectStore) ∧
     list_projects none demoProjectStore = demoProjectStore.docs) :=
  ⟨by decide, c6_tag_filter_exact "Web" demoProjectStore (by decide)⟩

/-- Claim C10: supplying tag as the empty string is falsy in the
handler's `if tag` test, so it behaves exactly like supplying no tag:
every stored Project document is returned, not only those whose tag is
the empty string. -/
theorem c10_empty_tag_lists_all (s : Store Project) :
    list_projects (some "") s = list_projects none s ∧
    list_projects (some "") s = s.docs := by
  simp [list_projects]

/-- Claim C2: for an existing Project document and a validated
ProjectUpdate payload, the update overwrites exactly the fields
explicitly present with a non-null value in the payload (each becomes
the payload value) while every other field keeps its stored value, and
the PUT handler rewrites only the matched document with exactly this
merge. -/
theorem c2_update_overwrites_exactly_present_nonnull
    (pl : Payload) (u : ProjectUpdate) (p : Project)
    (hv : ProjectUpdate.validate pl = .ok u) :
    (applyUpdate p u).title = updTargetStr pl "title" p.title ∧
    (applyUpdate p u).tag = updTargetStr pl "tag" p.tag ∧
    (applyUpdate p u).image_url = updTargetStr pl "image_url" p.image_url ∧
    (applyUpdate p u).description = updTargetOptStr pl "description" p.description ∧
    (applyUpdate p u).case_study_url =
      updTargetOptStr pl "case_study_url" p.case_study_url ∧
    (applyUpdate p u).featured = updTargetBool pl "featured" p.featured ∧
    (applyUpdate p u).order = updTargetOptInt pl "order" p.order ∧
    (∀ pid s, s.docs.any (fun d => d.1 == pid) = true →
      isValidObjectId pid = true →
      (update_project pid pl s).2.docs =
        s.docs.map fun d => if d.1 == pid then (d.1, applyUpdate d.2 u) else d) := by
  obtain ⟨ht, hg, hi, hd, hc, hf, ho⟩ := projectUpdate_validate_ok hv
  refine ⟨optStr_target ht p.title, optStr_target hg p.tag,
    optStr_target hi p.image_url, ?_, ?_, optBool_target hf p.featured, ?_, ?_⟩
  · cases hu : u.description with
    | some d =>
        rw [hu] at hd
        simp [applyUpdate, hu, updTargetOptStr, optStr_ok_some hd]
    | none =>
        rw [hu] at hd
        rcases optStr_ok_none hd with h | h <;>
          simp [applyUpdate, hu, updTargetOptStr, h]
  · cases hu : u.case_study_url with
    | some c =>
        rw [hu] at hc
        simp [applyUpdate, hu, updTargetOptStr, optStr_ok_some hc]
    | none =>
        rw [hu] at hc
        rcases optStr_ok_none hc with h | h <;>
          simp [applyUpdate, hu, updTargetOptStr, h]
  · cases hu : u.order with
    | some n =>
        rw [hu] at ho
        simp [applyUpdate, hu, updTargetOptInt, optNonnegInt_ok_some ho]
    | none =>
        rw [hu] at ho
        rcases optNonnegInt_ok_none ho with h | h <;>
          simp [applyUpdate, hu, updTargetOptInt, h]
  · intro pid s hany hpid
    simp [update_project, hv, hpid, hany]

/-- Claim C2 witness: the update payload setting only featured to true
on the demo project and the demo store. -/
theorem c2_update_overwrites_witness :
    ProjectUpdate.validate demoUpdatePayload = .ok demoUpdate ∧
    (applyUpdate demoProject demoUpdate).featured =
      updTargetBool demoUpdatePayload "featured" demoProject.featured ∧
    (applyUpdate demoProject demoUpdate).title =
      updTargetStr demoUpdatePayload "title" demoProject.title ∧
    (update_project "aaaaaaaaaaaaaaaaaaaaaaa1" demoUpdatePayload demoProjectStore).2.docs =
      demoProjectStore.docs.map (fun d =>
        if d.1 == "aaaaaaaaaaaaaaaaaaaaaaa1" then (d.1, applyUpdate d.2 demoUpdate) else d) := by
  have h := c2_update_overwrites_exactly_present_nonnull
    demoUpdatePayload demoUpdate demoProject (by rfl)
  exact ⟨by rfl, h.2.2.2.2.2.1, h.1,
    h.2.2.2.2.2.2.2 "aaaaaaaaaaaaaaaaaaaaaaa1" demoProjectStore (by decide) (by decide)⟩

/-- Claim C3 counterexample: starting from an empty sitesettings
collection, two GET /api/admin/settings calls with no intervening
write do not return identical content: the first returns the freshly
dumped defaults without a store id, the second returns the stored
document with its id string attached. -/
theorem c3_counterexample_two_reads_differ :
    (get_settings (get_settings emptySettingsStore).2).1 ≠
      (get_settings emptySettingsStore).1 := by
  decide

/-- Claim C3 (amended): two settings reads with no intervening write
return identical content whenever a settings document already exists
(and the read writes nothing); from an empty collection the first read
returns the defaults without an id, creates exactly one default
document, and later reads return the same default content with an id;
and regardless of call count the collection never holds more than one
document. -/
theorem c3_settings_read_amended (s : Store SiteSettings) (n : Nat) :
    (s.docs ≠ [] →
      (get_settings s).2 = s ∧
      (get_settings (get_settings s).2).1 = (get_settings s).1) ∧
    (s.docs = [] →
      (get_settings s).1 = ⟨none, defaultSiteSettings⟩ ∧
      (get_settings s).2.docs.length = 1 ∧
      (get_settings (get_settings s).2).1.data = defaultSiteSettings ∧
      (get_settings (get_settings s).2).1.id ≠ none) ∧
    (s.docs.length ≤ 1 → (iterGetSettings n s).docs.length ≤ 1) := by
  refine ⟨?_, ?_, ?_⟩
  · intro h
    match hd : s.docs with
    | [] => exact absurd hd h
    | (i, d) :: rest => exact ⟨by simp [get_settings, hd], by simp [get_settings, hd]⟩
  · intro h
    obtain ⟨docs, k⟩ := s
    simp only at h
    subst h
    refine ⟨rfl, rfl, rfl, by simp [get_settings, Store.create]⟩
  · induction n generalizing s with
    | zero => intro h; simpa [iterGetSettings] using h
    | succ n ih =>
        intro h
        rw [iterGetSettings]
        apply ih
        match hd : s.docs with
        | [] => simp [get_settings, hd, Store.create]
        | (i, d) :: rest => simpa [get_settings, hd] using h

/-- Claim C3 witness: the amended statement at a one-document store
and at the empty store, with three iterated reads. -/
theorem c3_settings_read_amended_witness :
    demoSettingsStore.docs ≠ [] ∧
    ((get_settings demoSettingsStore).2 = demoSettingsStore ∧
     (get_settings (get_settings demoSettingsStore).2).1 =
       (get_settings demoSettingsStore).1) ∧
    emptySettingsStore.docs = [] ∧
    ((get_settings emptySettingsStore).1 = ⟨none, defaultSiteSettings⟩ ∧
     (get_settings emptySettingsStore).2.docs.length = 1 ∧
     (get_settings (get_settings emptySettingsStore).2).1.data = defaultSiteSettings ∧
     (get_settings (get_settings emptySettingsStore).2).1.id ≠ none) ∧
    (iterGetSettings 3 emptySettingsStore).docs.length ≤ 1 :=
  ⟨by decide, (c3_settings_read_amended demoSettingsStore 3).1 (by decide),
   by decide, (c3_settings_read_amended emptySettingsStore 3).2.1 (by decide),
   (c3_settings_read_amended emptySettingsStore 3).2.2 (by decide)⟩

/-- Claim C9: POST /api/admin/settings over an existing document is a
full replace, not a merge: the stored document becomes exactly the
validated payload (the old values are discarded for every SiteSettings
field), and any field omitted from the payload carries its schema
default in that validated record (hero_title reverts to the default
string, stats to 0, optional fields to null, theme_default_dark to
true). -/
theorem c9_settings_upsert_full_replace
    (pl : Payload) (data old : SiteSettings) (i : String)
    (rest : List (String × SiteSettings)) (n : Nat)
    (hv : SiteSettings.validate pl = .ok data) :
    (upsert_settings pl ⟨(i, old) :: rest, n⟩).2 = ⟨(i, data) :: rest, n⟩ ∧
    (upsert_settings pl ⟨(i, old) :: rest, n⟩).1 = ⟨200, "updated", [], none⟩ ∧
    (lookupField pl "hero_title" = none →
      data.hero_title = defaultSiteSettings.hero_title) ∧
    (lookupField pl "hero_subtitle" = none →
      data.hero_subtitle = defaultSiteSettings.hero_subtitle) ∧
    (lookupField pl "whatsapp_number" = none → data.whatsapp_number = none) ∧
    (lookupField pl "contact_email" = none → data.contact_email = none) ∧
    (lookupField pl "address_line" = none → data.address_line = none) ∧
    (lookupField pl "city" = none → data.city = none) ∧
    (lookupField pl "country" = none → data.country = none) ∧
    (lookupField pl "stat_projects" = none → data.stat_projects = some 0) ∧
    (lookupField pl "stat_clients" = none → data.stat_clients = some 0) ∧
    (lookupField pl "stat_awards" = none → data.stat_awards = some 0) ∧
    (lookupField pl "theme_default_dark" = none → data.theme_default_dark = true) := by
  obtain ⟨h1, h2, h3, h4, h5, h6, h7, h8, h9, h10, h11⟩ := siteSettings_validate_ok hv
  exact ⟨by simp [upsert_settings, hv], by simp [upsert_settings, hv],
    fun hL => defStr_absent h1 hL, fun hL => defStr_absent h2 hL,
    fun hL => optStr_absent h3 hL, fun hL => optEmail_absent h4 hL,
    fun hL => optStr_absent h5 hL, fun hL => optStr_absent h6 hL,
    fun hL => optStr_absent h7 hL, fun hL => defNonnegInt_absent h8 hL,
    fun hL => defNonnegInt_absent h9 hL, fun hL => defNonnegInt_absent h10 hL,
    fun hL => defBool_absent h11 hL⟩

/-- Claim C9 witness: upserting a payload that only sets city over a
stored default document replaces the whole document with the validated
record, whose omitted hero_title carries the schema default. -/
theorem c9_settings_upsert_full_replace_witness :
    SiteSettings.validate demoSettingsPayload = .ok demoSettings ∧
    (upsert_settings demoSettingsPayload
       ⟨[("b00000000000000000000000", defaultSiteSettings)], 1⟩).2 =
      ⟨[("b00000000000000000000000", demoSettings)], 1⟩ ∧
    (upsert_settings demoSettingsPayload
       ⟨[("b00000000000000000000000", defaultSiteSettings)], 1⟩).1 =
      ⟨200, "updated", [], none⟩ ∧
    demoSettings.hero_title = defaultSiteSettings.hero_title := by
  have h := c9_settings_upsert_full_replace demoSettingsPayload demoSettings
    defaultSiteSettings "b00000000000000000000000" [] 1 (by rfl)
  exact ⟨by rfl, h.1, h.2.1, h.2.2.1 (by decide)⟩

/-- Claim C4: a valid ContactMessage payload makes POST /api/contact
persist exactly one new document and answer ok with a non-empty id; an
invalid payload (in particular one missing the required name field)
makes it answer 422 with a non-empty per-field error list, leaving the
store unchanged — validation short-circuits before any store call. -/
theorem c4_contact_persist_or_reject (pl : Payload) (s : Store ContactMessage) :
    (∀ m, ContactMessage.validate pl = .ok m →
       (submit_contact pl s).1 = ⟨200, "ok", [], some (objectIdOfNat s.nextId)⟩ ∧
       (submit_contact pl s).2.docs = s.docs ++ [(objectIdOfNat s.nextId, m)] ∧
       objectIdOfNat s.nextId ≠ "") ∧
    (∀ es, ContactMessage.validate pl = .error es →
       (submit_contact pl s).1 = ⟨422, "", es, none⟩ ∧
       es ≠ [] ∧
       (submit_contact pl s).2 = s) ∧
    (lookupField pl "name" = none →
       ∃ es, ContactMessage.validate pl = .error es ∧
         (⟨"name", "missing"⟩ : FieldError) ∈ es) := by
  refine ⟨?_, ?_, ?_⟩
  · intro m hm
    refine ⟨?_, ?_, objectIdOfNat_ne_empty s.nextId⟩ <;>
      simp [submit_contact, hm, Store.create]
  · intro es hes
    exact ⟨by simp [submit_contact, hes],
      ContactMessage.validate_error_ne_nil hes, by simp [submit_contact, hes]⟩
  · intro hL
    have hname : reqStrLen pl "name" 2 120 = .error ⟨"name", "missing"⟩ := by
      unfold reqStrLen
      rw [hL]
      rfl
    unfold ContactMessage.validate
    rw [hname]
    simp [errsOf]

/-- Claim C4 witness: a valid demo payload persisted into the empty
store, and a payload missing name rejected with a name error. -/
theorem c4_contact_persist_or_reject_witness :
    ContactMessage.validate demoContactPayload =
      .ok ⟨"Jo", "a@b.co", "hello there", none, none⟩ ∧
    (submit_contact demoContactPayload ⟨[], 0⟩).1 =
      ⟨200, "ok", [], some (objectIdOfNat 0)⟩ ∧
    (submit_contact demoContactPayload ⟨[], 0⟩).2.docs =
      [(objectIdOfNat 0, ⟨"Jo", "a@b.co", "hello there", none, none⟩)] ∧
    objectIdOfNat 0 ≠ "" ∧
    (∃ es, ContactMessage.validate [("email", Value.str "a@b.co")] = .error es ∧
       (⟨"name", "missing"⟩ : FieldError) ∈ es) := by
  have h := c4_contact_persist_or_reject demoContactPayload
    (⟨[], 0⟩ : Store ContactMessage)
  have h2 := c4_contact_persist_or_reject [("email", Value.str "a@b.co")]
    (⟨[], 0⟩ : Store ContactMessage)
  have hb := h.1 ⟨"Jo", "a@b.co", "hello there", none, none⟩ (by rfl)
  exact ⟨by rfl, hb.1, hb.2.1, hb.2.2, h2.2.2 (by decide)⟩

/-- The probe string of n letters has length n. -/
theorem charRun_length (n : Nat) : (charRun n).length = n :=
  List.length_replicate n 'a'

/-- The probe email address is well-formed. -/
theorem isValidEmail_demo : isValidEmail "a@b.co" = true := by rfl

/-- Claim C7: the ContactMessage length bounds are inclusive and
violations are rejected rather than truncated: a name of exactly 2 or
120 characters is accepted, of 1 or 121 characters rejected; a message
of exactly 10 or 5000 characters is accepted, of 9 or 5001 characters
rejected (all other fields held valid). -/
theorem c7_length_bounds_inclusive :
    isAccepted (ContactMessage.validate (contactPayloadLen 2 20)) = true ∧
    isAccepted (ContactMessage.validate (contactPayloadLen 120 20)) = true ∧
    isAccepted (ContactMessage.validate (contactPayloadLen 1 20)) = false ∧
    isAccepted (ContactMessage.validate (contactPayloadLen 121 20)) = false ∧
    isAccepted (ContactMessage.validate (contactPayloadLen 5 10)) = true ∧
    isAccepted (ContactMessage.validate (contactPayloadLen 5 5000)) = true ∧
    isAccepted (ContactMessage.validate (contactPayloadLen 5 9)) = false ∧
    isAccepted (ContactMessage.validate (contactPayloadLen 5 5001)) = false := by
  refine ⟨?_, ?_, ?_, ?_, ?_, ?_, ?_, ?_⟩ <;>
    simp [contactPayloadLen, ContactMessage.validate, reqStrLen, reqStrLenV,
      reqEmail, reqEmailV, optStrMax, optStrMaxV, lookupField, charRun_length,
      isValidEmail_demo, isAccepted, errsOf]

/-- Claim C8: a payload key that is not a declared field of the record
type never influences validation: appending an unknown key/value to
any payload leaves the validation outcome of ContactMessage,
SiteSettings, Project and ProjectUpdate unchanged (pydantic v2 default
posture ignores unknown fields, and the validated record carries only
the declared fields, so unknown keys are never persisted). -/
theorem c8_unknown_keys_ignored (pl : Payload) (k : String) (v : Value) :
    (k ∉ contactKeys →
      ContactMessage.validate (pl ++ [(k, v)]) = ContactMessage.validate pl) ∧
    (k ∉ settingsKeys →
      SiteSettings.validate (pl ++ [(k, v)]) = SiteSettings.validate pl) ∧
    (k ∉ projectKeys →
      Project.validate (pl ++ [(k, v)]) = Project.validate pl) ∧
    (k ∉ projectKeys →
      ProjectUpdate.validate (pl ++ [(k, v)]) = ProjectUpdate.validate pl) := by
  refine ⟨?_, ?_, ?_, ?_⟩
  · intro hk
    simp [contactKeys] at hk
    obtain ⟨k1, k2, k3, k4, k5⟩ := hk
    unfold ContactMessage.validate reqStrLen reqEmail optStrMax
    rw [lookupField_append_single pl k "name" v (Ne.symm k1),
        lookupField_append_single pl k "email" v (Ne.symm k2),
        lookupField_append_single pl k "message" v (Ne.symm k3),
        lookupField_append_single pl k "company" v (Ne.symm k4),
        lookupField_append_single pl k "phone" v (Ne.symm k5)]
  · intro hk
    simp [settingsKeys] at hk
    obtain ⟨k1, k2, k3, k4, k5, k6, k7, k8, k9, k10, k11⟩ := hk
    unfold SiteSettings.validate defStr optStr optEmail defNonnegInt defBool
    rw [lookupField_append_single pl k "hero_title" v (Ne.symm k1),
        lookupField_append_single pl k "hero_subtitle" v (Ne.symm k2),
        lookupField_append_single pl k "whatsapp_number" v (Ne.symm k3),
        lookupField_append_single pl k "contact_email" v (Ne.symm k4),
        lookupField_append_single pl k "address_line" v (Ne.symm k5),
        lookupField_append_single pl k "city" v (Ne.symm k6),
        lookupField_append_single pl k "country" v (Ne.symm k7),
        lookupField_append_single pl k "stat_projects" v (Ne.symm k8),
        lookupField_append_single pl k "stat_clients" v (Ne.symm k9),
        lookupField_append_single pl k "stat_awards" v (Ne.symm k10),
        lookupField_append_single pl k "theme_default_dark" v (Ne.symm k11)]
  · intro hk
    simp [projectKeys] at hk
    obtain ⟨k1, k2, k3, k4, k5, k6, k7⟩ := hk
    unfold Project.validate reqStr optStr defBool optNonnegInt
    rw [lookupField_append_single pl k "title" v (Ne.symm k1),
        lookupField_append_single pl k "tag" v (Ne.symm k2),
        lookupField_append_single pl k "image_url" v (Ne.symm k3),
        lookupField_append_single pl k "description" v (Ne.symm k4),
        lookupField_append_single pl k "case_study_url" v (Ne.symm k5),
        lookupField_append_single pl k "featured" v (Ne.symm k6),
        lookupField_append_single pl k "order" v (Ne.symm k7)]
  · intro hk
    simp [projectKeys] at hk
    obtain ⟨k1, k2, k3, k4, k5, k6, k7⟩ := hk
    unfold ProjectUpdate.validate optStr optBool optNonnegInt
    rw [lookupField_append_single pl k "title" v (Ne.symm k1),
        lookupField_append_single pl k "tag" v (Ne.symm k2),
        lookupField_append_single pl k "image_url" v (Ne.symm k3),
        lookupField_append_single pl k "description" v (Ne.symm k4),
        lookupField_append_single pl k "case_study_url" v (Ne.symm k5),
        lookupField_append_single pl k "featured" v (Ne.symm k6),
        lookupField_append_single pl k "order" v (Ne.symm k7)]

/-- Claim C8 witness: the unknown key "unexpected" appended to the
demo contact payload changes no validation outcome. -/
theorem c8_unknown_keys_ignored_witness :
    ("unexpected" ∉ contactKeys) ∧
    ("unexpected" ∉ settingsKeys) ∧
    ("unexpected" ∉ projectKeys) ∧
    ContactMessage.validate (demoContactPayload ++ [("unexpected", Value.int 7)]) =
      ContactMessage.validate demoContactPayload ∧
    SiteSettings.validate (demoContactPayload ++ [("unexpected", Value.int 7)]) =
      SiteSettings.validate demoContactPayload ∧
    Project.validate (demoContactPayload ++ [("unexpected", Value.int 7)]) =
      Project.validate demoContactPayload ∧
    ProjectUpdate.validate (demoContactPayload ++ [("unexpected", Value.int 7)]) =
      ProjectUpdate.validate demoContactPayload := by
  have h := c8_unknown_keys_ignored demoContactPayload "unexpected" (Value.int 7)
  exact ⟨by decide, by decide, by decide, h.1 (by decide), h.2.1 (by decide),
    h.2.2.1 (by decide), h.2.2.2 (by decide)⟩
